import Mathlib

/-!
Verification of the anchor & annotation lifecycle manager of a WebXR
annotation viewer, against its natural-language specification.

The development shallowly embeds the relevant JavaScript source:
  * web/src/user_text_records.js  — the client-side user-text cache
    (updateUserTextRecords / removeUserTextRecord / getUserText),
  * the index/controller module — gesture handlers
    (handleSelectStart / handleSqueezeStart), the per-frame pending-anchor
    flush (handlePendingAnchors), the primary-anchor installer
    (setPrimaryAnchor / buildAnchorMarker), and the session-start
    restoration protocol (setupRATK).

External collaborators (the tracking toolkit, the scene graph, the remote
blob store) are modelled by their observable interface: calls issued to
them are recorded in explicit call logs, and their results are passed in
as parameters. Stateful JavaScript modules become explicit state records;
async functions that can reject become Except-valued functions; a promise
is modelled by its settlement.
-/

set_option autoImplicit false

namespace WebXR

/-! ## user_text_records.js -/

/-- One record of the remote text store: a username/text pair. -/
structure TextRecord where
  username : String
  text : String
deriving Repr, DecidableEq

/-- Module state of user_text_records.js: the module-level
cache array userTextRecords, plus a count of how many times the
collaborator fetchAllTextFiles has been invoked (to state
how many bulk fetches an operation performs). -/
structure UTRState where
  records : List TextRecord
  fetchCount : Nat
deriving Repr, DecidableEq

/-- Cold-start module state: empty cache, no fetches performed. -/
def coldUTR : UTRState := ⟨[], 0⟩

/-- updateUserTextRecords (user_text_records.js lines 6-9).
The collaborator fetchAllTextFiles is modelled by its settlement
fetchAll. The source awaits the fetch and then only logs the result
(console.log on line 8): the fetched records are never written into
userTextRecords, so on success only the fetch counter changes. -/
def updateUserTextRecords (fetchAll : Except String (List TextRecord))
    (s : UTRState) : Except String UTRState :=
  match fetchAll with
  | Except.error e => Except.error e
  | Except.ok _textRecords =>
      Except.ok { s with fetchCount := s.fetchCount + 1 }

/-- getUserText (user_text_records.js lines 24-38): if the cache is
empty, await updateUserTextRecords; then look the username up in the
cache with Array.prototype.find and return its text, or null. -/
def getUserText (fetchAll : Except String (List TextRecord))
    (s : UTRState) (username : String) :
    Except String (UTRState × Option String) :=
  match
    (if s.records.length = 0 then updateUserTextRecords fetchAll s
     else Except.ok s) with
  | Except.error e => Except.error e
  | Except.ok s =>
    match s.records.find? (fun record => record.username == username) with
    | none => Except.ok (s, none)
    | some record => Except.ok (s, some record.text)

/-- removeUserTextRecord (user_text_records.js lines 11-22): if the
cache is empty, await updateUserTextRecords; then findIndex the first
record with the given username and, when found, splice it out. -/
def removeUserTextRecord (fetchAll : Except String (List TextRecord))
    (s : UTRState) (username : String) : Except String UTRState :=
  match
    (if s.records.length = 0 then updateUserTextRecords fetchAll s
     else Except.ok s) with
  | Except.error e => Except.error e
  | Except.ok s =>
    match s.records.findIdx? (fun record => record.username == username) with
    | none => Except.ok s
    | some index => Except.ok { s with records := s.records.eraseIdx index }

/-! ## Index module: gesture handlers, pending anchors, primary anchor -/

/-- A three-component vector, as used for camera and anchor positions.
The index module only copies coordinates and zeroes the y component, so
exact integer coordinates model the operations faithfully. -/
structure Vec3 where
  x : Int
  y : Int
  z : Int
deriving Repr, DecidableEq

/-- A quaternion; the index module only ever constructs the default
new Quaternion, which is the identity rotation. -/
structure Quat where
  x : Int
  y : Int
  z : Int
  w : Int
deriving Repr, DecidableEq

/-- new Quaternion with no arguments: the identity rotation. -/
def identityQuat : Quat := ⟨0, 0, 0, 1⟩

/-- A position/orientation pair, the payload of pendingAnchorData and
the argument of the tracking collaborator createAnchor call. -/
structure AnchorTransform where
  position : Vec3
  quaternion : Quat
deriving Repr, DecidableEq

/-- State of the index module touched by handleSqueezeStart and
handlePendingAnchors: the module-level pendingAnchorData slot, the
persistent-anchor set of the tracking collaborator (anchors identified
by their opaque IDs), and logs of the createAnchor and deleteAnchor
calls issued to the tracking collaborator. -/
structure IndexState where
  pendingAnchorData : Option AnchorTransform
  persistentAnchors : List Nat
  createAnchorCalls : List (AnchorTransform × Bool)
  deleteAnchorCalls : List Nat
deriving Repr, DecidableEq

/-- ratk.deleteAnchor(anchor): removes the anchor from the tracking
collaborator set of persistent anchors; the call is logged. -/
def deleteAnchor (s : IndexState) (anchor : Nat) : IndexState :=
  { s with
    persistentAnchors := s.persistentAnchors.filter (fun a => a ≠ anchor)
    deleteAnchorCalls := s.deleteAnchorCalls ++ [anchor] }

/-- handleSqueezeStart (index module lines 290-305): sequentially await
ratk.deleteAnchor for every anchor in ratk.persistentAnchors, then clone
the camera position, zero its y coordinate, and store it with a fresh
identity quaternion in pendingAnchorData (overwriting any prior value). -/
def handleSqueezeStart (cameraPosition : Vec3) (s : IndexState) : IndexState :=
  let s1 := s.persistentAnchors.foldl deleteAnchor s
  { s1 with
    pendingAnchorData :=
      some ⟨⟨cameraPosition.x, 0, cameraPosition.z⟩, identityQuat⟩ }

/-- handlePendingAnchors (index module lines 466-479), run once per
frame tick: if pendingAnchorData is set, issue
ratk.createAnchor(position, quaternion, true) — requesting a persistent
anchor — and clear the pending slot; the async continuation (setting the
created anchor as primary) runs later and is treated separately. -/
def handlePendingAnchors (s : IndexState) : IndexState :=
  match s.pendingAnchorData with
  | none => s
  | some data =>
      { s with
        createAnchorCalls := s.createAnchorCalls ++ [(data, true)]
        pendingAnchorData := none }

/-! ## Primary anchor lifecycle: setPrimaryAnchor / buildAnchorMarker -/

/-- Marker color chosen by buildAnchorMarker (index module line 499):
red 0xff0000 when the anchor is recovered, green 0x00ff00 when newly
created. -/
def markerColor (isRecovered : Bool) : Nat :=
  if isRecovered then 0xff0000 else 0x00ff00

/-- Marker meshes attached beneath anchor nodes, as an association
list keyed by anchor ID, each entry holding that anchor node's marker
colors in attach order. anchor.add(mesh) only ever appends: no code
path detaches a marker from its anchor, so markers accumulate on the
node and survive the node leaving and re-entering the scene. -/
def addMarker : List (Nat × List Nat) → Nat → Nat → List (Nat × List Nat)
  | [], anchor, color => [(anchor, [color])]
  | (x, colors) :: rest, anchor, color =>
      if x = anchor then (x, colors ++ [color]) :: rest
      else (x, colors) :: addMarker rest anchor color

/-- The marker colors currently attached beneath the given anchor
node, in attach order (empty when the anchor never received one). -/
def lookupMarkers : List (Nat × List Nat) → Nat → List Nat
  | [], _ => []
  | (x, colors) :: rest, anchor =>
      if x = anchor then colors else lookupMarkers rest anchor

/-- State owned by setPrimaryAnchor / buildAnchorMarker: the marker
meshes accumulated on each anchor node, the anchor nodes currently
attached to the scene as primary, the module-level primaryAnchor and
primaryAnchorMesh references, and a log of every setPrimaryAnchor call
made. -/
structure ALMState where
  markers : List (Nat × List Nat)
  sceneAnchors : List Nat
  primaryAnchor : Option Nat
  primaryAnchorMesh : Option Nat
  setPrimaryCalls : List (Nat × Bool)
deriving Repr, DecidableEq

/-- Scene state before any anchor is installed. -/
def initALM : ALMState := ⟨[], [], none, none, []⟩

/-- setPrimaryAnchor (index module lines 481-494) together with the
buildAnchorMarker it calls (lines 496-507): when a primary anchor
already exists, scene.remove it; the scene.remove(primaryAnchorMesh)
on line 485 is a no-op, because the current marker mesh is a child of
the anchor node, not of the scene, so the anchor keeps every marker it
has accumulated. Then primaryAnchor is reassigned and
buildAnchorMarker runs: a fresh mesh colored by isRecovered becomes
primaryAnchorMesh, anchor.add(mesh) appends it to the anchor node
(earlier markers on that node stay attached), and scene.add(anchor)
attaches the node — an Object3D.add first detaches its argument from
any current parent, so the scene holds at most one copy of the node.
loadAnnotationObjects (line 492) only touches collaborator state and
is not modelled. -/
def setPrimaryAnchor (s : ALMState) (anchor : Nat) (isRecovered : Bool) :
    ALMState :=
  let sceneAnchors :=
    match s.primaryAnchor with
    | some prev => s.sceneAnchors.filter (fun x => x ≠ prev)
    | none => s.sceneAnchors
  { markers := addMarker s.markers anchor (markerColor isRecovered)
    sceneAnchors := sceneAnchors.filter (fun x => x ≠ anchor) ++ [anchor]
    primaryAnchor := some anchor
    primaryAnchorMesh := some (markerColor isRecovered)
    setPrimaryCalls := s.setPrimaryCalls ++ [(anchor, isRecovered)] }

/-- The marker colors attached beneath the given anchor node in the
given state, in attach order. -/
def anchorMarkers (s : ALMState) (anchor : Nat) : List Nat :=
  lookupMarkers s.markers anchor

/-- A whole history of setPrimaryAnchor calls applied from the initial
scene; each list entry is the (anchor, isRecovered) pair of one call. -/
def runSetPrimary (calls : List (Nat × Bool)) : ALMState :=
  calls.foldl (fun s c => setPrimaryAnchor s c.1 c.2) initALM

/-- Invariant of the primary-anchor state: either no primary anchor is
installed and no primary-anchor node is in the scene, or exactly one
anchor node — the current primary — is attached, and the most recently
attached of its accumulated markers is the current primaryAnchorMesh. -/
def ALMInv (s : ALMState) : Prop :=
  (s.primaryAnchor = none ∧ s.sceneAnchors = []) ∨
  (∃ a c, s.primaryAnchor = some a ∧ s.primaryAnchorMesh = some c ∧
    s.sceneAnchors = [a] ∧ (anchorMarkers s a).getLast? = some c)

/-! ## Session-start restoration protocol (setupRATK) -/

/-- A settled JavaScript promise: either resolved with a value or
rejected with an error message. -/
inductive Promise (α : Type) where
  | resolved (value : α)
  | rejected (msg : String)
deriving Repr, DecidableEq

/-- p.then(f) with no rejection handler: the fulfillment callback maps a
resolved value; a rejection passes through the chain untouched. -/
def Promise.thenFulfilled {α β : Type} (p : Promise α) (f : α → β) :
    Promise β :=
  match p with
  | .resolved v => .resolved (f v)
  | .rejected m => .rejected m

/-- The then-callback of setupRATK (index module lines 318-323): for
each restored anchor in ratk.anchors, in order, call
setPrimaryAnchor(anchor, true). -/
def restoreAnchors (anchors : List Nat) (s : ALMState) : ALMState :=
  anchors.foldl (fun st a => setPrimaryAnchor st a true) s

/-- Observable outcome of the sessionstart callback body. -/
structure SessionStartOutcome where
  chain : Promise ALMState
  loggedErrors : List String
  rethrown : Option String
deriving Repr, DecidableEq

/-- The body run by the sessionstart listener of setupRATK after the
1000 ms settle delay (index module lines 316-329):

  try { ratk.restorePersistentAnchors().then(...) }
  catch (error) { console.error(...); throw error; }

The restorePersistentAnchors collaborator call is modelled by the
settlement of the promise it returns. Calling it returns that promise
without throwing synchronously, and building the .then chain does not
throw either, so the try body completes normally in every case and the
catch clause — the only place that logs and re-throws — can only run on
a synchronous throw, which this body never produces. A rejection
instead flows into the .then chain, which installs no rejection
handler, leaving the chain rejected. -/
def sessionStartRestore (restoreResult : Promise (List Nat)) :
    SessionStartOutcome :=
  let chain :=
    restoreResult.thenFulfilled (fun anchors => restoreAnchors anchors initALM)
  { chain := chain, loggedErrors := [], rethrown := none }

/-! ## Select gesture: handleSelectStart -/

/-- One annotation object as seen by the select handler: its username
key and its state string (the source compares state against the string
literals "complete" and "playing"). -/
structure AnnotationObject where
  username : String
  state : String
deriving Repr, DecidableEq

/-- One raycast hit returned by
raycaster.intersectObjects(primaryAnchor.children, true), nearest
first. hit.object.annotationObject is the optional annotation-object
data attached to the hit scene object; none models a hit whose object
carries no annotationObject property. -/
structure Hit where
  annotationObject : Option AnnotationObject
deriving Repr, DecidableEq

/-- The externally observable actions handleSelectStart can perform, in
program order. -/
inductive SelectEffect where
  | setState (username : String) (oldState newState : String)
  | updateTextUi (username : String) (text : Option String)
  | clearTextUi
  | startCreation (primaryAnchor : Option Nat)
deriving Repr, DecidableEq

/-- Recognizes the effects that are annotation-object state
transitions (used to count how many transitions one gesture causes). -/
def isStateTransition : SelectEffect → Bool
  | SelectEffect.setState _ _ _ => true
  | _ => false

/-- The hit-scan loop of handleSelectStart (index module lines 264-284)
for a present primary anchor pa: walk the nearest-first hit list; at the
first hit carrying annotationObject data, branch on its state —
"complete" transitions to "playing" and then awaits getUserText (whose
behavior is passed in as fetchText; a rejection there escapes the async
handler) before updateTextUi; "playing" transitions to "complete" and
clears the text UI; any other state returns with no action — and return
(no hit after the first annotated one is examined). Only when no hit
carries annotation data does control fall through to
startCreatingAnnotationObject(scene, primaryAnchor, hitTestTarget).
The result pairs the effect trace with the error of an escaped
exception, if any. -/
def scanHits (pa : Nat) (fetchText : String → Except String (Option String)) :
    List Hit → List SelectEffect × Option String
  | [] => ([SelectEffect.startCreation (some pa)], none)
  | hit :: rest =>
    match hit.annotationObject with
    | some obj =>
      if obj.state = "complete" then
        match fetchText obj.username with
        | Except.error e =>
            ([SelectEffect.setState obj.username "complete" "playing"], some e)
        | Except.ok text =>
            ([SelectEffect.setState obj.username "complete" "playing",
              SelectEffect.updateTextUi obj.username text], none)
      else if obj.state = "playing" then
        ([SelectEffect.setState obj.username "playing" "complete",
          SelectEffect.clearTextUi], none)
      else
        ([], none)
    | none => scanHits pa fetchText rest

/-- handleSelectStart (index module lines 240-285): when primaryAnchor
is null the guarded raycast block is skipped entirely and control falls
directly to startCreatingAnnotationObject(scene, primaryAnchor,
hitTestTarget) with the null primary anchor; otherwise the raycast hit
list is scanned as in scanHits. -/
def handleSelectStart (primaryAnchor : Option Nat) (hits : List Hit)
    (fetchText : String → Except String (Option String)) :
    List SelectEffect × Option String :=
  match primaryAnchor with
  | none => ([SelectEffect.startCreation none], none)
  | some pa => scanHits pa fetchText hits

/-- getUserText as the select handler uses it: only the returned text
matters to the handler (the updated cache state lives in the module).
Derived directly from getUserText above. -/
def fetchTextVia (fetchAll : Except String (List TextRecord))
    (s : UTRState) (username : String) : Except String (Option String) :=
  match getUserText fetchAll s username with
  | Except.error e => Except.error e
  | Except.ok (_, text) => Except.ok text

/-! ## Helper lemmas -/

theorem findIdx?_username_none (u : String) (l : List TextRecord)
    (h : ∀ r ∈ l, r.username ≠ u) :
    l.findIdx? (fun record => record.username == u) = none := by
  induction l with
  | nil => simp
  | cons a t ih =>
      have ha : ¬ a.username = u := h a (List.mem_cons_self a t)
      simp only [List.findIdx?_cons]
      simp [ha, ih (fun r hr => h r (List.mem_cons_of_mem a hr))]

theorem findIdx?_username_append (u : String) (front : List TextRecord)
    (r : TextRecord) (back : List TextRecord)
    (hfront : ∀ x ∈ front, x.username ≠ u) (hr : r.username = u) :
    (front ++ r :: back).findIdx? (fun record => record.username == u)
      = some front.length := by
  induction front with
  | nil => simp [List.findIdx?_cons, hr]
  | cons a t ih =>
      have ha : ¬ a.username = u := hfront a (List.mem_cons_self a t)
      simp only [List.cons_append, List.findIdx?_cons]
      simp [ha, ih (fun x hx => hfront x (List.mem_cons_of_mem a hx))]

theorem eraseIdx_append_len (front : List TextRecord) (r : TextRecord)
    (back : List TextRecord) :
    (front ++ r :: back).eraseIdx front.length = front ++ back := by
  induction front with
  | nil => simp
  | cons a t ih => simp [List.eraseIdx, ih]

/-! ## Claim theorems -/

/-- C1: the spec scenario — text store holding the single record
(username ana, text hello) — evaluated on the code. The first
getUserText("ana") call from a cold start performs one bulk fetch but
returns null, because updateUserTextRecords discards what it fetched
(it only logs), so the cache stays empty; the second call therefore
performs a second bulk fetch (fetchCount 2) and again returns null,
contradicting the claimed one-fetch-then-cached behavior. -/
theorem getUserText_cold_start_double_fetch :
    getUserText (Except.ok [⟨"ana", "hello"⟩]) coldUTR "ana"
        = Except.ok (⟨[], 1⟩, none) ∧
    getUserText (Except.ok [⟨"ana", "hello"⟩]) ⟨[], 1⟩ "ana"
        = Except.ok (⟨[], 2⟩, none) := by
  exact ⟨rfl, rfl⟩

/-- C10: removeUserTextRecord is a no-op on the cache when no record
matches the username (whatever state an attempted refetch leaves), and
when a match exists it removes exactly the first matching record,
leaving every other record in place. -/
theorem removeUserTextRecord_first_match
    (fetchAll : Except String (List TextRecord)) (s : UTRState) (u : String) :
    ((∀ r ∈ s.records, r.username ≠ u) →
        ∀ t, removeUserTextRecord fetchAll s u = Except.ok t →
          t.records = s.records) ∧
    (∀ front r back, s.records = front ++ r :: back →
        (∀ x ∈ front, x.username ≠ u) → r.username = u →
        removeUserTextRecord fetchAll s u
          = Except.ok { s with records := front ++ back }) := by
  constructor
  · intro hno t ht
    by_cases hlen : s.records.length = 0
    · have hrec : s.records = [] := List.length_eq_zero.mp hlen
      cases fetchAll with
      | error e =>
          simp [removeUserTextRecord, hlen, updateUserTextRecords] at ht
      | ok v =>
          simp [removeUserTextRecord, hlen, updateUserTextRecords, hrec] at ht
          rw [← ht]
          simp [hrec]
    · simp [removeUserTextRecord, hlen,
        findIdx?_username_none u s.records hno] at ht
      rw [← ht]
  · intro front r back hrec hfront hr
    have hlen : ¬ s.records.length = 0 := by simp [hrec]
    simp [removeUserTextRecord, hlen, hrec,
      findIdx?_username_append u front r back hfront hr,
      eraseIdx_append_len front r back]

/-- C10 witness: on the concrete cache [ana, bob, ana2] the call
removes exactly the first ana record. -/
theorem removeUserTextRecord_first_match_witness :
    removeUserTextRecord (Except.ok []) ⟨[⟨"ana", "a"⟩, ⟨"bob", "b"⟩, ⟨"ana", "c"⟩], 0⟩ "bob"
      = Except.ok ⟨[⟨"ana", "a"⟩, ⟨"ana", "c"⟩], 0⟩ :=
  (removeUserTextRecord_first_match (Except.ok [])
      ⟨[⟨"ana", "a"⟩, ⟨"bob", "b"⟩, ⟨"ana", "c"⟩], 0⟩ "bob").2
    [⟨"ana", "a"⟩] ⟨"bob", "b"⟩ [⟨"ana", "c"⟩] rfl (by decide) rfl

/-- Folding deleteAnchor over any anchor list leaves pendingAnchorData
untouched. -/
theorem foldl_deleteAnchor_pending (l : List Nat) (s : IndexState) :
    (l.foldl deleteAnchor s).pendingAnchorData = s.pendingAnchorData := by
  induction l generalizing s with
  | nil => rfl
  | cons a t ih =>
      simp only [List.foldl_cons]
      rw [ih (deleteAnchor s a)]
      rfl

/-- Folding deleteAnchor over any anchor list leaves the
createAnchorCalls log untouched. -/
theorem foldl_deleteAnchor_create (l : List Nat) (s : IndexState) :
    (l.foldl deleteAnchor s).createAnchorCalls = s.createAnchorCalls := by
  induction l generalizing s with
  | nil => rfl
  | cons a t ih =>
      simp only [List.foldl_cons]
      rw [ih (deleteAnchor s a)]
      rfl

/-- Folding deleteAnchor over an anchor list issues exactly one delete
call per anchor, in order. -/
theorem foldl_deleteAnchor_calls (l : List Nat) (s : IndexState) :
    (l.foldl deleteAnchor s).deleteAnchorCalls = s.deleteAnchorCalls ++ l := by
  induction l generalizing s with
  | nil => simp
  | cons a t ih =>
      simp only [List.foldl_cons]
      rw [ih (deleteAnchor s a)]
      simp [deleteAnchor]

/-- Folding deleteAnchor over a list covering every current persistent
anchor empties the persistent-anchor set. -/
theorem foldl_deleteAnchor_empties (l : List Nat) (s : IndexState)
    (h : ∀ x ∈ s.persistentAnchors, x ∈ l) :
    (l.foldl deleteAnchor s).persistentAnchors = [] := by
  induction l generalizing s with
  | nil =>
      simp only [List.foldl_nil]
      exact List.eq_nil_iff_forall_not_mem.mpr
        (fun x hx => (List.not_mem_nil x) (h x hx))
  | cons a t ih =>
      simp only [List.foldl_cons]
      apply ih
      intro x hx
      simp only [deleteAnchor, List.mem_filter] at hx
      rcases hx with ⟨hxs, hxa⟩
      rcases List.mem_cons.mp (h x hxs) with h1 | h2
      · simp [h1] at hxa
      · exact h2

/-- C2 counterexample: at the concrete state with no primary anchor and
an empty hit list, the select handler does invoke
startCreatingAnnotationObject — the gesture is not ignored, refuting
the claim that the creation workflow is never started. -/
theorem select_no_anchor_starts_creation :
    SelectEffect.startCreation none ∈
      (handleSelectStart none [] (fun _ => Except.ok none)).1 := by
  simp [handleSelectStart]

/-- C2 (amended): for every select gesture dispatched while no primary
anchor exists, the handler throws no exception and performs no hit scan
and no state transition, but it does start the creation workflow
exactly once, passing the absent (null) primary anchor to
startCreatingAnnotationObject. -/
theorem select_no_anchor_amended (hits : List Hit)
    (fetchText : String → Except String (Option String)) :
    handleSelectStart none hits fetchText
      = ([SelectEffect.startCreation none], none) := rfl

/-- C9: evaluating the sessionstart restoration body on a rejected
restorePersistentAnchors call. The try/catch only guards synchronous
throws, so the rejection bypasses the catch clause entirely: nothing is
logged, nothing is re-thrown, and the rejection is left unhandled on
the promise chain — refuting the claimed log-and-rethrow behavior,
which the dead catch clause (console.error + throw) clearly intends. -/
theorem sessionstart_rejection_unlogged :
    (sessionStartRestore (Promise.rejected "boom")).loggedErrors = [] ∧
    (sessionStartRestore (Promise.rejected "boom")).rethrown = none ∧
    (sessionStartRestore (Promise.rejected "boom")).chain
        = Promise.rejected "boom" := by
  exact ⟨rfl, rfl, rfl⟩

/-- C5: recording a pending anchor-creation request twice (two squeeze
gestures) before the next frame tick results in exactly one
createAnchor call to the tracking collaborator — a persistent one,
using the transform of the second request (last-wins) — and the tick
clears the pending slot, so a further tick issues no additional
createAnchor call. -/
theorem pending_anchor_last_wins (s : IndexState) (cam1 cam2 : Vec3) :
    (handlePendingAnchors
        (handleSqueezeStart cam2 (handleSqueezeStart cam1 s))).createAnchorCalls
      = s.createAnchorCalls
          ++ [(⟨⟨cam2.x, 0, cam2.z⟩, identityQuat⟩, true)] ∧
    (handlePendingAnchors
        (handleSqueezeStart cam2 (handleSqueezeStart cam1 s))).pendingAnchorData
      = none ∧
    handlePendingAnchors (handlePendingAnchors
        (handleSqueezeStart cam2 (handleSqueezeStart cam1 s)))
      = handlePendingAnchors
          (handleSqueezeStart cam2 (handleSqueezeStart cam1 s)) := by
  refine ⟨?_, rfl, rfl⟩
  simp [handlePendingAnchors, handleSqueezeStart, foldl_deleteAnchor_create]

/-- C6: a squeeze gesture deletes every persistent anchor of the
tracking collaborator — one sequential delete call per anchor, in
order — leaving zero persistent anchors, and then records a pending
anchor-creation request at the camera position with y zeroed and the
identity quaternion. -/
theorem squeeze_deletes_all_then_pending (cam : Vec3) (s : IndexState) :
    (handleSqueezeStart cam s).persistentAnchors = [] ∧
    (handleSqueezeStart cam s).deleteAnchorCalls
      = s.deleteAnchorCalls ++ s.persistentAnchors ∧
    (handleSqueezeStart cam s).pendingAnchorData
      = some ⟨⟨cam.x, 0, cam.z⟩, identityQuat⟩ := by
  refine ⟨?_, ?_, rfl⟩
  · simp only [handleSqueezeStart]
    exact foldl_deleteAnchor_empties s.persistentAnchors s (fun x hx => hx)
  · simp only [handleSqueezeStart]
    exact foldl_deleteAnchor_calls s.persistentAnchors s

/-- Adding a marker to an anchor appends it to that anchor's
accumulated markers. -/
theorem lookupMarkers_addMarker_self (m : List (Nat × List Nat))
    (a c : Nat) :
    lookupMarkers (addMarker m a c) a = lookupMarkers m a ++ [c] := by
  induction m with
  | nil => simp [addMarker, lookupMarkers]
  | cons e rest ih =>
      obtain ⟨x, colors⟩ := e
      by_cases hx : x = a
      · simp [addMarker, lookupMarkers, hx]
      · simp [addMarker, lookupMarkers, hx, ih]

/-- Adding a marker to one anchor leaves every other anchor's
accumulated markers unchanged. -/
theorem lookupMarkers_addMarker_other (m : List (Nat × List Nat))
    (x c a : Nat) (hne : x ≠ a) :
    lookupMarkers (addMarker m x c) a = lookupMarkers m a := by
  induction m with
  | nil => simp [addMarker, lookupMarkers, hne]
  | cons e rest ih =>
      obtain ⟨y, colors⟩ := e
      by_cases hy : y = x
      · subst hy
        simp [addMarker, lookupMarkers, hne]
      · by_cases ha : y = a
        · simp [addMarker, lookupMarkers, hy, ha, hne.symm]
        · simp [addMarker, lookupMarkers, hy, ha, ih]

/-- A setPrimaryAnchor call appends one fresh marker of the chosen
color to the installed anchor node, keeping its earlier markers. -/
theorem anchorMarkers_setPrimaryAnchor_self (s : ALMState) (a : Nat)
    (b : Bool) :
    anchorMarkers (setPrimaryAnchor s a b) a
      = anchorMarkers s a ++ [markerColor b] := by
  simp [anchorMarkers, setPrimaryAnchor, lookupMarkers_addMarker_self]

/-- A setPrimaryAnchor call touches no other anchor's markers. -/
theorem anchorMarkers_setPrimaryAnchor_other (s : ALMState) (x : Nat)
    (b : Bool) (a : Nat) (hne : x ≠ a) :
    anchorMarkers (setPrimaryAnchor s x b) a = anchorMarkers s a := by
  simp [anchorMarkers, setPrimaryAnchor,
    lookupMarkers_addMarker_other s.markers x (markerColor b) a hne]

/-- Whatever the state satisfying the invariant, a setPrimaryAnchor
call leaves exactly one anchor node attached: the one just installed. -/
theorem setPrimaryAnchor_sceneAnchors (s : ALMState) (a : Nat) (b : Bool)
    (h : ALMInv s) :
    (setPrimaryAnchor s a b).sceneAnchors = [a] := by
  rcases h with ⟨h1, h2⟩ | ⟨p, c, h1, h2, h3, h4⟩
  · simp [setPrimaryAnchor, h1, h2]
  · simp [setPrimaryAnchor, h1, h3]

/-- setPrimaryAnchor preserves the single-primary-anchor invariant. -/
theorem setPrimaryAnchor_inv (s : ALMState) (a : Nat) (b : Bool)
    (h : ALMInv s) : ALMInv (setPrimaryAnchor s a b) := by
  right
  refine ⟨a, markerColor b, rfl, rfl,
    setPrimaryAnchor_sceneAnchors s a b h, ?_⟩
  rw [anchorMarkers_setPrimaryAnchor_self]
  exact List.getLast?_concat _

/-- Any fold of setPrimaryAnchor calls preserves the invariant. -/
theorem foldl_setPrimaryAnchor_inv (calls : List (Nat × Bool))
    (s : ALMState) (h : ALMInv s) :
    ALMInv (calls.foldl (fun st c => setPrimaryAnchor st c.1 c.2) s) := by
  induction calls generalizing s with
  | nil => exact h
  | cons c t ih =>
      simp only [List.foldl_cons]
      exact ih _ (setPrimaryAnchor_inv s c.1 c.2 h)

/-- The initial state satisfies the invariant. -/
theorem initALM_inv : ALMInv initALM := Or.inl ⟨rfl, rfl⟩

/-- C4 counterexample: re-installing the already-primary anchor 7 —
the concrete call sequence setPrimaryAnchor(7, false) then
setPrimaryAnchor(7, true) — leaves anchor 7 attached to the scene
still carrying its stale green 0x00ff00 marker alongside the new red
one, although the most recent call had isRecovered = true: anchor.add
accumulates marker meshes and scene.remove(primaryAnchorMesh) is a
no-op, so the attached marker color does not reflect only the most
recent call, refuting the claim as stated. -/
theorem setPrimary_reinstall_stale_marker :
    (runSetPrimary [(7, false), (7, true)]).sceneAnchors = [7] ∧
    (runSetPrimary [(7, false), (7, true)]).primaryAnchorMesh
      = some 0xff0000 ∧
    anchorMarkers (runSetPrimary [(7, false), (7, true)]) 7
      = [0x00ff00, 0xff0000] := by
  exact ⟨rfl, rfl, rfl⟩

/-- C4 (amended): for every sequence of setPrimaryAnchor calls from
the initial state, at most one anchor node is attached to the scene as
primary (installing a new primary first removes the previous anchor
node from the scene), and after a final call (anchor a, isRecovered b)
the single attached node is anchor a whose most recently attached
marker has the color of that call — red 0xff0000 when b is true, green
0x00ff00 when b is false; earlier markers accumulated on a re-installed
anchor remain attached beneath it. -/
theorem setPrimary_unique_anchor_last_marker (calls : List (Nat × Bool)) :
    (runSetPrimary calls).sceneAnchors.length ≤ 1 ∧
    (∀ front a b, calls = front ++ [(a, b)] →
      (runSetPrimary calls).sceneAnchors = [a] ∧
      (runSetPrimary calls).primaryAnchor = some a ∧
      (runSetPrimary calls).primaryAnchorMesh = some (markerColor b) ∧
      (anchorMarkers (runSetPrimary calls) a).getLast?
        = some (markerColor b)) := by
  constructor
  · rcases foldl_setPrimaryAnchor_inv calls initALM initALM_inv with
      ⟨_, h2⟩ | ⟨x, c, _, _, h3, _⟩
    · simp [runSetPrimary] at h2 ⊢
      simp [h2]
    · simp [runSetPrimary] at h3 ⊢
      simp [h3]
  · intro front a b hcalls
    subst hcalls
    have hsplit : runSetPrimary (front ++ [(a, b)])
        = setPrimaryAnchor (runSetPrimary front) a b := by
      simp [runSetPrimary, List.foldl_append]
    have hinv := foldl_setPrimaryAnchor_inv front initALM initALM_inv
    refine ⟨?_, ?_, ?_, ?_⟩
    · rw [hsplit]
      exact setPrimaryAnchor_sceneAnchors _ a b hinv
    · rw [hsplit]; rfl
    · rw [hsplit]; rfl
    · rw [hsplit, anchorMarkers_setPrimaryAnchor_self]
      exact List.getLast?_concat _

/-- C4 witness: after the concrete call sequence [(5, false),
(7, true)] exactly anchor 7 is attached, primary, and its most recent
marker is the red recovered one. -/
theorem setPrimary_unique_anchor_last_marker_witness :
    (runSetPrimary [(5, false), (7, true)]).sceneAnchors = [7] ∧
    (runSetPrimary [(5, false), (7, true)]).primaryAnchor = some 7 ∧
    (runSetPrimary [(5, false), (7, true)]).primaryAnchorMesh
      = some (markerColor true) ∧
    (anchorMarkers (runSetPrimary [(5, false), (7, true)]) 7).getLast?
      = some (markerColor true) :=
  (setPrimary_unique_anchor_last_marker [(5, false), (7, true)]).2
    [(5, false)] 7 true rfl

/-- Restoring appends one setPrimaryAnchor call per anchor, in
processing order, each with isRecovered = true. -/
theorem restoreAnchors_calls (anchors : List Nat) (s : ALMState) :
    (restoreAnchors anchors s).setPrimaryCalls
      = s.setPrimaryCalls ++ anchors.map (fun x => (x, true)) := by
  induction anchors generalizing s with
  | nil => simp [restoreAnchors]
  | cons a t ih =>
      simp only [restoreAnchors, List.foldl_cons] at ih ⊢
      rw [ih (setPrimaryAnchor s a true)]
      simp [setPrimaryAnchor]

/-- Restoration preserves the single-primary-anchor invariant. -/
theorem restoreAnchors_inv (anchors : List Nat) (s : ALMState)
    (h : ALMInv s) : ALMInv (restoreAnchors anchors s) := by
  induction anchors generalizing s with
  | nil => exact h
  | cons a t ih =>
      simp only [restoreAnchors, List.foldl_cons] at ih ⊢
      exact ih (setPrimaryAnchor s a true) (setPrimaryAnchor_inv s a true h)

/-- Restoring a list of anchors not containing a leaves the markers
accumulated on anchor node a untouched. -/
theorem restoreAnchors_markers_not_mem (l : List Nat) (s : ALMState)
    (a : Nat) (h : a ∉ l) :
    anchorMarkers (restoreAnchors l s) a = anchorMarkers s a := by
  induction l generalizing s with
  | nil => rfl
  | cons x t ih =>
      simp only [restoreAnchors, List.foldl_cons] at ih ⊢
      rw [ih (setPrimaryAnchor s x true)
        (fun hx => h (List.mem_cons_of_mem x hx))]
      exact anchorMarkers_setPrimaryAnchor_other s x true a
        (fun hxa => h (hxa ▸ List.mem_cons_self x t))

/-- C7: restoration with anchors processed in order front ++ [a]
installs every restored anchor via setPrimaryAnchor with
isRecovered = true, in processing order, and afterwards exactly one
primary anchor node is attached — the last anchor processed, whose
most recent marker is the red recovered one (exactly one red marker
when, as for anchors restored from a set, the last anchor was not
processed before); the promise chain built by the sessionstart body
delivers exactly this state on success. -/
theorem restore_installs_all_last_primary (anchors front : List Nat)
    (a : Nat) (h : anchors = front ++ [a]) :
    (restoreAnchors anchors initALM).setPrimaryCalls
        = anchors.map (fun x => (x, true)) ∧
    (restoreAnchors anchors initALM).primaryAnchor = some a ∧
    (restoreAnchors anchors initALM).sceneAnchors = [a] ∧
    (anchorMarkers (restoreAnchors anchors initALM) a).getLast?
        = some (markerColor true) ∧
    (a ∉ front →
        anchorMarkers (restoreAnchors anchors initALM) a
          = [markerColor true]) ∧
    (sessionStartRestore (Promise.resolved anchors)).chain
        = Promise.resolved (restoreAnchors anchors initALM) := by
  subst h
  have hsplit : restoreAnchors (front ++ [a]) initALM
      = setPrimaryAnchor (restoreAnchors front initALM) a true := by
    simp [restoreAnchors, List.foldl_append]
  have hinv : ALMInv (restoreAnchors front initALM) :=
    restoreAnchors_inv front initALM initALM_inv
  refine ⟨?_, ?_, ?_, ?_, ?_, rfl⟩
  · rw [restoreAnchors_calls]
    rfl
  · rw [hsplit]
    rfl
  · rw [hsplit]
    exact setPrimaryAnchor_sceneAnchors _ a true hinv
  · rw [hsplit, anchorMarkers_setPrimaryAnchor_self]
    exact List.getLast?_concat _
  · intro hnotin
    rw [hsplit, anchorMarkers_setPrimaryAnchor_self,
      restoreAnchors_markers_not_mem front initALM a hnotin]
    rfl

/-- C7 witness: restoring the three concrete anchors [1, 2, 3] issues
the three recovered installs in order and leaves anchor 3 as the only
attached primary node, carrying exactly one red marker. -/
theorem restore_installs_all_last_primary_witness :
    (restoreAnchors [1, 2, 3] initALM).setPrimaryCalls
        = [(1, true), (2, true), (3, true)] ∧
    (restoreAnchors [1, 2, 3] initALM).primaryAnchor = some 3 ∧
    (restoreAnchors [1, 2, 3] initALM).sceneAnchors = [3] ∧
    anchorMarkers (restoreAnchors [1, 2, 3] initALM) 3
        = [markerColor true] ∧
    (sessionStartRestore (Promise.resolved [1, 2, 3])).chain
        = Promise.resolved (restoreAnchors [1, 2, 3] initALM) := by
  have h := restore_installs_all_last_primary [1, 2, 3] [1, 2] 3 rfl
  exact ⟨h.1, h.2.1, h.2.2.1, h.2.2.2.2.1 (by decide), h.2.2.2.2.2⟩

/-- Hits whose objects carry no annotation data are skipped by the
scan without any effect. -/
theorem scanHits_append_none (pa : Nat)
    (fetchText : String → Except String (Option String))
    (front hits : List Hit)
    (hfront : ∀ x ∈ front, x.annotationObject = none) :
    scanHits pa fetchText (front ++ hits) = scanHits pa fetchText hits := by
  induction front with
  | nil => rfl
  | cons a t ih =>
      have ha := hfront a (List.mem_cons_self a t)
      simp only [List.cons_append, scanHits, ha]
      exact ih (fun x hx => hfront x (List.mem_cons_of_mem a hx))

/-- The scan stops at the first hit carrying annotation data and acts
only on that object. -/
theorem scanHits_first_annotated (pa : Nat)
    (fetchText : String → Except String (Option String))
    (hit : Hit) (rest : List Hit) (obj : AnnotationObject)
    (hhit : hit.annotationObject = some obj) :
    scanHits pa fetchText (hit :: rest) =
      (if obj.state = "complete" then
        match fetchText obj.username with
        | Except.error e =>
            ([SelectEffect.setState obj.username "complete" "playing"], some e)
        | Except.ok text =>
            ([SelectEffect.setState obj.username "complete" "playing",
              SelectEffect.updateTextUi obj.username text], none)
      else if obj.state = "playing" then
        ([SelectEffect.setState obj.username "playing" "complete",
          SelectEffect.clearTextUi], none)
      else ([], none)) := by
  simp only [scanHits, hhit]

/-- C3: with a primary anchor present, the select handler stops the
nearest-first hit scan at the first hit carrying annotationObject data
and that one object alone transitions — complete to playing, playing
to complete, any other state no transition — while the gesture is
always consumed (the creation workflow is never started); only when no
hit carries annotation data does the handler start the creation
workflow. -/
theorem select_first_annotated_hit (pa : Nat)
    (fetchText : String → Except String (Option String))
    (front : List Hit) (hit : Hit) (rest : List Hit)
    (obj : AnnotationObject)
    (hfront : ∀ x ∈ front, x.annotationObject = none)
    (hhit : hit.annotationObject = some obj) :
    handleSelectStart (some pa) (front ++ hit :: rest) fetchText
        = handleSelectStart (some pa) [hit] fetchText ∧
    (∀ p, SelectEffect.startCreation p ∉
        (handleSelectStart (some pa) (front ++ hit :: rest) fetchText).1) ∧
    (handleSelectStart (some pa) (front ++ hit :: rest) fetchText).1.countP
        isStateTransition ≤ 1 ∧
    (obj.state = "complete" →
        SelectEffect.setState obj.username "complete" "playing" ∈
          (handleSelectStart (some pa) (front ++ hit :: rest) fetchText).1) ∧
    (obj.state = "playing" →
        handleSelectStart (some pa) (front ++ hit :: rest) fetchText
          = ([SelectEffect.setState obj.username "playing" "complete",
              SelectEffect.clearTextUi], none)) ∧
    (obj.state ≠ "complete" → obj.state ≠ "playing" →
        handleSelectStart (some pa) (front ++ hit :: rest) fetchText
          = ([], none)) ∧
    (∀ noneHits : List Hit, (∀ x ∈ noneHits, x.annotationObject = none) →
        handleSelectStart (some pa) noneHits fetchText
          = ([SelectEffect.startCreation (some pa)], none)) := by
  have hmain : handleSelectStart (some pa) (front ++ hit :: rest) fetchText
      = scanHits pa fetchText (hit :: rest) :=
    scanHits_append_none pa fetchText front (hit :: rest) hfront
  have hsingle := scanHits_first_annotated pa fetchText hit rest obj hhit
  have hsingle1 := scanHits_first_annotated pa fetchText hit [] obj hhit
  refine ⟨?_, ?_, ?_, ?_, ?_, ?_, ?_⟩
  · show _ = scanHits pa fetchText [hit]
    rw [hmain, hsingle, hsingle1]
  · intro p
    rw [hmain, hsingle]
    split
    · cases fetchText obj.username <;> simp
    · split <;> simp
  · rw [hmain, hsingle]
    split
    · cases fetchText obj.username <;> simp [isStateTransition]
    · split <;> simp [isStateTransition]
  · intro hstate
    rw [hmain, hsingle]
    simp only [hstate, if_pos rfl]
    cases fetchText obj.username <;> simp
  · intro hstate
    rw [hmain, hsingle]
    rw [if_neg (by simp [hstate]), if_pos hstate]
  · intro h1 h2
    rw [hmain, hsingle, if_neg h1, if_neg h2]
  · intro noneHits hnone
    show scanHits pa fetchText noneHits = _
    have := scanHits_append_none pa fetchText noneHits [] hnone
    simpa using this

/-- C3 witness: a concrete gesture — one unannotated hit in front of a
complete ana object, with a playing bob object behind it — transitions
only ana, consumes the gesture, and matches the single-hit scan. -/
theorem select_first_annotated_hit_witness :
    handleSelectStart (some 1)
        ([⟨none⟩] ++ ⟨some ⟨"ana", "complete"⟩⟩ :: [⟨some ⟨"bob", "playing"⟩⟩])
        (fun _ => Except.ok (some "hello"))
      = handleSelectStart (some 1) [⟨some ⟨"ana", "complete"⟩⟩]
          (fun _ => Except.ok (some "hello")) ∧
    SelectEffect.setState "ana" "complete" "playing" ∈
      (handleSelectStart (some 1)
        ([⟨none⟩] ++ ⟨some ⟨"ana", "complete"⟩⟩ :: [⟨some ⟨"bob", "playing"⟩⟩])
        (fun _ => Except.ok (some "hello"))).1 := by
  have h := select_first_annotated_hit 1 (fun _ => Except.ok (some "hello"))
    [⟨none⟩] ⟨some ⟨"ana", "complete"⟩⟩ [⟨some ⟨"bob", "playing"⟩⟩]
    ⟨"ana", "complete"⟩ (by simp) rfl
  exact ⟨h.1, h.2.2.2.1 rfl⟩

/-- C8 counterexample: at a concrete gesture whose text fetch rejects
(the bulk fetch of the remote store fails on a cold cache), the
rejection escapes handleSelectStart instead of being caught and
logged — refuting the claim that no unhandled exception propagates. -/
theorem select_fetch_failure_escapes :
    (handleSelectStart (some 1) [⟨some ⟨"ana", "complete"⟩⟩]
        (fetchTextVia (Except.error "network failure") coldUTR)).2
      = some "network failure" := rfl

/-- C8 (amended): when the text fetch performed during the
complete-to-playing transition fails, the state transition to playing
has already been performed before the fetch, updateTextUi is never
reached, and the rejection propagates out of the async handler
unhandled — nothing in this path catches or logs it. -/
theorem select_fetch_failure_amended (pa : Nat) (hit : Hit)
    (rest : List Hit) (obj : AnnotationObject)
    (fetchText : String → Except String (Option String)) (e : String)
    (hhit : hit.annotationObject = some obj)
    (hstate : obj.state = "complete")
    (hfetch : fetchText obj.username = Except.error e) :
    handleSelectStart (some pa) (hit :: rest) fetchText
      = ([SelectEffect.setState obj.username "complete" "playing"], some e) := by
  show scanHits pa fetchText (hit :: rest) = _
  rw [scanHits_first_annotated pa fetchText hit rest obj hhit,
    if_pos hstate, hfetch]

/-- C8 witness: the amended statement applied at the concrete rejected
fetch through getUserText on a cold cache. -/
theorem select_fetch_failure_amended_witness :
    handleSelectStart (some 1) [⟨some ⟨"ana", "complete"⟩⟩]
        (fetchTextVia (Except.error "remote store down") coldUTR)
      = ([SelectEffect.setState "ana" "complete" "playing"],
          some "remote store down") :=
  select_fetch_failure_amended 1 ⟨some ⟨"ana", "complete"⟩⟩ []
    ⟨"ana", "complete"⟩
    (fetchTextVia (Except.error "remote store down") coldUTR)
    "remote store down" rfl rfl rfl

end WebXR
